import Mathlib

/-!
Shallow embedding of the RPLidar pigpio driver protocol engine
(`rplidar.py`): outbound command framing with checksum, descriptor
parsing, measurement decoding, the scan assembler of `iter_scans`,
the buffer-overflow guard, the polling response reader and the
startup (health / reset) sequence of `_setup_iter`.

Bytes are modelled as `Nat` (wire bytes are always `< 256`; bounds are
carried as hypotheses where a claim needs them).  Python floats are
modelled as `ℚ`: the only float operations in the source are exact
divisions of small integers by the powers of two 64 and 4, which are
exact in binary floating point, so the rational model loses nothing.
Python exceptions are modelled by an explicit error type.
-/

namespace RPLidar

/-- Python exception outcomes relevant to the driver.  `rplidarException`
is the module's own `RPLidarException(msg)`; `keyError` is an unhandled
dictionary lookup failure (`KeyError`, a `LookupError`); `valueError` and
`timeoutError` stand for the builtin `ValueError` and `TimeoutError`
classes (never raised by this code); `indexError` is an out-of-range
byte access; `structError` is `struct.error` from packing a value that
does not fit one byte. -/
inductive PyErr where
  | rplidarException (msg : String)
  | keyError (key : Nat)
  | valueError
  | timeoutError
  | indexError
  | structError
deriving DecidableEq, Repr

def SYNC_BYTE : Nat := 0xA5
def SYNC_BYTE2 : Nat := 0x5A
def GET_INFO_BYTE : Nat := 0x50
def GET_HEALTH_BYTE : Nat := 0x52
def STOP_BYTE : Nat := 0x25
def RESET_BYTE : Nat := 0x40
def SCAN_BYTE : Nat := 0x20
def DESCRIPTOR_LEN : Nat := 7
def INFO_LEN : Nat := 20
def HEALTH_LEN : Nat := 3
def INFO_TYPE : Nat := 4
def HEALTH_TYPE : Nat := 6
def SCAN_TYPE : Nat := 129

/-- `_send_payload_cmd`: the frame written to the serial port for a
payload-bearing command.  `struct.pack('B', len(payload))` fails for a
payload longer than 255 bytes, modelled as `structError`; the checksum
is the XOR of every byte of sync, opcode, length byte and payload. -/
def send_payload_cmd (cmd : Nat) (payload : List Nat) : Except PyErr (List Nat) :=
  if payload.length < 256 then
    let req := SYNC_BYTE :: cmd :: payload.length :: payload
    let checksum := req.foldl Nat.xor 0
    Except.ok (req ++ [checksum])
  else
    Except.error PyErr.structError

/-- `_send_cmd`: the frame written for a command without payload is the
sync byte followed by the opcode, nothing else. -/
def send_cmd (cmd : Nat) : List Nat := [SYNC_BYTE, cmd]

/-- `_read_descriptor` applied to the 7 bytes returned by the serial
read: checks the length, then the two sync bytes, then returns
`(descriptor[2], descriptor[-2] == 0, descriptor[-1])`, i.e. the
declared size taken from byte 2 alone, the single-response flag as
"byte 5 equals zero", and the data type from byte 6. -/
def read_descriptor (descriptor : List Nat) : Except PyErr (Nat × Bool × Nat) :=
  match descriptor with
  | [b0, b1, b2, _, _, b5, b6] =>
    if b0 = SYNC_BYTE ∧ b1 = SYNC_BYTE2 then
      Except.ok (b2, b5 == 0, b6)
    else
      Except.error (PyErr.rplidarException "Incorrect descriptor starting bytes")
  | _ => Except.error (PyErr.rplidarException "Descriptor length mismatch")

/-- Modelled from the spec: the descriptor length/mode field as the spec
describes it — a 4-byte little-endian value at bytes 2..5 whose low 30
bits are the declared body length and whose top 2 bits are the
send-mode flag.  Used only to compare the spec wording against
`read_descriptor`. -/
def spec_descriptor_field (b2 b3 b4 b5 : Nat) : Nat :=
  b2 + b3 * 2 ^ 8 + b4 * 2 ^ 16 + b5 * 2 ^ 24

def spec_descriptor_length (b2 b3 b4 b5 : Nat) : Nat :=
  spec_descriptor_field b2 b3 b4 b5 % 2 ^ 30

def spec_descriptor_mode (b2 b3 b4 b5 : Nat) : Nat :=
  spec_descriptor_field b2 b3 b4 b5 / 2 ^ 30

/-- A decoded measurement, as returned by `_process_scan`:
`(new_scan, quality, angle, distance)`. -/
structure Meas where
  new_scan : Bool
  quality : Nat
  angle : ℚ
  distance : ℚ
deriving DecidableEq, Repr

/-- `_process_scan` on the raw bytes of one measurement record.  The
source reads `raw[0] .. raw[4]`; records shorter than 5 bytes raise an
index error.  `new_scan` is bit 0 of byte 0, its inverse is bit 1, the
quality is `raw[0] >> 2`; the check bit is bit 0 of byte 1.  Angle and
distance are the exact rational values of
`((raw[1] >> 1) + (raw[2] << 7)) / 64.0` and
`(raw[3] + (raw[4] << 8)) / 4.0`. -/
def process_scan (raw : List Nat) : Except PyErr Meas :=
  match raw with
  | b0 :: b1 :: b2 :: b3 :: b4 :: _ =>
    let new_scan : Bool := b0 % 2 == 1
    let inversed_new_scan : Bool := b0 / 2 % 2 == 1
    let quality := b0 / 4
    if new_scan = inversed_new_scan then
      Except.error (PyErr.rplidarException "New scan flags mismatch")
    else if b1 % 2 ≠ 1 then
      Except.error (PyErr.rplidarException "Check bit not equal to 1")
    else
      Except.ok ⟨new_scan, quality,
        ((b1 / 2 + b2 * 2 ^ 7 : Nat) : ℚ) / 64,
        ((b3 + b4 * 2 ^ 8 : Nat) : ℚ) / 4⟩
  | _ => Except.error PyErr.indexError

/-- `_check_buffer`: given the byte count the channel reports as
buffered, returns the number of bytes drained and whether the guard
fired.  It fires exactly when `data_in_buf > max_buf_meas * dsize` and
then drains `data_in_buf // dsize * dsize` bytes in a single read. -/
def check_buffer (max_buf_meas dsize data_in_buf : Nat) : Nat × Bool :=
  if max_buf_meas * dsize < data_in_buf then
    (data_in_buf / dsize * dsize, true)
  else
    (0, false)

/-- The poll loop of `_read_response` / `_read_descriptor`: starting at
poll index `i` with `n` polls left, returns the index at which the loop
stops — the first index whose reported availability reaches `dsize`,
or the index after the last poll. -/
def poll_loop (avail : Nat → Nat) (dsize : Nat) : Nat → Nat → Nat
  | 0, i => i
  | n + 1, i => if dsize ≤ avail i then i else poll_loop avail dsize n (i + 1)

/-- `_read_response` at the level of byte counts: `avail i` is the
availability the channel reports at the `i`-th poll; the read that
follows the loop returns `min (avail j) dsize` bytes, and the function
fails with `RPLidarException "Wrong body size"` whenever that is not
exactly `dsize`.  There is no other failure: the loop running out of
polls raises nothing by itself. -/
def read_response (polls : Nat) (avail : Nat → Nat) (dsize : Nat) : Except PyErr Nat :=
  let j := poll_loop avail dsize polls 0
  let got := min (avail j) dsize
  if got ≠ dsize then
    Except.error (PyErr.rplidarException "Wrong body size")
  else
    Except.ok got

/-- The `_HEALTH_STATUSES` dictionary. -/
def HEALTH_STATUSES (b : Nat) : Option String :=
  if b = 0 then some "Good"
  else if b = 1 then some "Warning"
  else if b = 2 then some "Error"
  else none

/-- The body-decoding step of `get_health` on the 3 response bytes:
`_HEALTH_STATUSES[raw[0]]` (an unhandled `KeyError` for an unknown
status byte) paired with the big-endian error code
`(raw[1] << 8) + raw[2]`. -/
def get_health_decode (b0 b1 b2 : Nat) : Except PyErr (String × Nat) :=
  match HEALTH_STATUSES b0 with
  | some status => Except.ok (status, b1 * 2 ^ 8 + b2)
  | none => Except.error (PyErr.keyError b0)

/-- The stored form of a measurement inside `iter_scans`' accumulator:
the source appends the tuple `(quality, angle, distance)`. -/
def mdata (m : Meas) : Nat × ℚ × ℚ := (m.quality, m.angle, m.distance)

/-- The inner `for` loop of `iter_scans` over one batch of decoded
measurements, processing the batch from position `i` with the current
in-progress `scan`.  `guard i` is the value `_check_buffer` returns when
consulted at position `i` (it depends on external channel state); it is
consulted only on a new-scan measurement and only when `max_buf_meas`
is non-zero, and a `true` answer breaks out of the batch.  Returns the
scans yielded while processing the batch and the in-progress scan left
for the next batch. -/
def iter_scans_batch (min_len max_buf_meas : Nat) (guard : Nat → Bool) :
    List Meas → Nat → List (Nat × ℚ × ℚ) →
    List (List (Nat × ℚ × ℚ)) × List (Nat × ℚ × ℚ)
  | [], _, scan => ([], scan)
  | m :: rest, i, scan =>
    if m.new_scan then
      let emitted := if min_len < scan.length then [scan] else []
      if max_buf_meas ≠ 0 ∧ guard i = true then
        (emitted, [])
      else
        let r := iter_scans_batch min_len max_buf_meas guard rest (i + 1) [mdata m]
        (emitted ++ r.1, r.2)
    else
      iter_scans_batch min_len max_buf_meas guard rest (i + 1) (scan ++ [mdata m])

/-- The protocol-visible steps of the startup sequence. -/
inductive Action where
  | startMotor
  | getHealth
  | resetCmd
  | sendScanCmd
  | readDesc
deriving DecidableEq, Repr

/-- Health statuses as `_setup_iter` compares them. -/
inductive HStatus where
  | good
  | warning
  | error
deriving DecidableEq, Repr

/-- `_setup_iter` at the level of its protocol trace: `h1` is the status
the first `get_health` returns, `h2` the status a second `get_health`
would return after a reset.  The result is the sequence of protocol
steps performed and whether the hardware-failure exception was raised
(raising aborts the sequence, so nothing follows the second health
check in that case). -/
def setup_iter (h1 h2 : HStatus) : List Action × Bool :=
  let t0 := [Action.startMotor, Action.getHealth]
  if h1 = HStatus.error then
    let t1 := t0 ++ [Action.resetCmd, Action.getHealth]
    if h2 = HStatus.error then
      (t1, true)
    else
      (t1 ++ [Action.sendScanCmd, Action.readDesc], false)
  else
    (t0 ++ [Action.sendScanCmd, Action.readDesc], false)

/-- C1: for every command whose payload has length at most 255, the
encoded frame is exactly the sync byte 0xA5, the opcode, one length
byte, the payload bytes, and a final checksum byte equal to the XOR of
every preceding byte of the frame (equivalently, the XOR of the whole
frame is zero); a command without payload is framed as sync byte then
opcode only, with no length byte and no checksum byte. -/
theorem send_payload_cmd_frame (cmd : Nat) (payload : List Nat)
    (h : payload.length ≤ 255) :
    (∃ c, send_payload_cmd cmd payload =
        Except.ok ((SYNC_BYTE :: cmd :: payload.length :: payload) ++ [c]) ∧
      c = (SYNC_BYTE :: cmd :: payload.length :: payload).foldl Nat.xor 0 ∧
      ((SYNC_BYTE :: cmd :: payload.length :: payload) ++ [c]).foldl Nat.xor 0 = 0) ∧
    send_cmd cmd = [SYNC_BYTE, cmd] ∧ (send_cmd cmd).length = 2 := by
  refine ⟨⟨(SYNC_BYTE :: cmd :: payload.length :: payload).foldl Nat.xor 0, ?_, rfl, ?_⟩,
    rfl, rfl⟩
  · unfold send_payload_cmd
    rw [if_pos (by omega)]
  · rw [List.foldl_concat]
    exact Nat.xor_self _

/-- C1 witness: the set-motor-PWM command 0xF0 with the two-byte payload
of the default PWM value 660. -/
theorem send_payload_cmd_frame_witness :
    ([0x94, 0x02] : List Nat).length ≤ 255 ∧
    ((∃ c, send_payload_cmd 0xF0 [0x94, 0x02] =
        Except.ok ((SYNC_BYTE :: 0xF0 :: ([0x94, 0x02] : List Nat).length :: [0x94, 0x02]) ++ [c]) ∧
      c = (SYNC_BYTE :: 0xF0 :: ([0x94, 0x02] : List Nat).length :: [0x94, 0x02]).foldl Nat.xor 0 ∧
      ((SYNC_BYTE :: 0xF0 :: ([0x94, 0x02] : List Nat).length :: [0x94, 0x02]) ++ [c]).foldl Nat.xor 0 = 0) ∧
    send_cmd 0xF0 = [SYNC_BYTE, 0xF0] ∧ (send_cmd 0xF0).length = 2) :=
  ⟨by decide, send_payload_cmd_frame 0xF0 [0x94, 0x02] (by decide)⟩

/-- C3 counterexample: the descriptor A5 5A 03 01 00 00 81 has a
little-endian length field whose low 30 bits are 259, yet the decoder
returns the declared length 3, read from byte 2 alone; and on the
descriptor A5 5A 05 00 00 01 81 the top 2 bits of the field are 0
(single-response per the claimed reading) yet the decoder reports the
response as not single because byte 5 is non-zero. -/
theorem read_descriptor_ignores_high_bytes :
    read_descriptor [0xA5, 0x5A, 3, 1, 0, 0, 129] = Except.ok (3, true, 129) ∧
    spec_descriptor_length 3 1 0 0 = 259 ∧ (3 : Nat) ≠ 259 ∧
    read_descriptor [0xA5, 0x5A, 5, 0, 0, 1, 129] = Except.ok (5, false, 129) ∧
    spec_descriptor_mode 5 0 0 1 = 0 := by
  refine ⟨?_, by decide, by decide, ?_, by decide⟩ <;>
    simp [read_descriptor, SYNC_BYTE, SYNC_BYTE2]

/-- C3 amended: for every 7-byte descriptor beginning with the sync
bytes 0xA5 0x5A, the decoder returns byte 2 alone as the declared body
length (bytes 3, 4 and 5 of the 4-byte field are ignored), reports the
response as single-send-mode exactly when the whole of byte 5 equals
zero (not just its top 2 bits), and returns byte 6 as the data type. -/
theorem read_descriptor_fields (b2 b3 b4 b5 b6 : Nat) :
    read_descriptor [SYNC_BYTE, SYNC_BYTE2, b2, b3, b4, b5, b6] =
      Except.ok (b2, b5 == 0, b6) := by
  simp [read_descriptor]

/-- C8 counterexample: with `max_buf_meas = 1` and 5-byte records, a
reported backlog of 7 bytes exceeds the threshold of 5, but the guard
drains only 5 bytes in its single read, not the full 7-byte backlog. -/
theorem check_buffer_partial_drain :
    check_buffer 1 5 7 = (5, true) ∧ (5 : Nat) ≠ 7 := by
  exact ⟨rfl, by decide⟩

/-- C8 amended: the guard fires exactly when the reported backlog
strictly exceeds `max_buf_meas * dsize`; when it fires it performs one
drain read of `data_in_buf / dsize * dsize` bytes — the largest whole
number of records not exceeding the backlog, which is the full backlog
only when the backlog is a whole number of records — logs a warning and
raises no error; below or at the threshold it reads nothing. -/
theorem check_buffer_drain (max_buf_meas dsize d : Nat) (hd : 0 < dsize) :
    (max_buf_meas * dsize < d →
      check_buffer max_buf_meas dsize d = (d / dsize * dsize, true) ∧
      d / dsize * dsize ≤ d ∧ d < d / dsize * dsize + dsize ∧
      (dsize ∣ d → d / dsize * dsize = d)) ∧
    (d ≤ max_buf_meas * dsize → check_buffer max_buf_meas dsize d = (0, false)) := by
  constructor
  · intro hlt
    refine ⟨?_, Nat.div_mul_le_self d dsize, Nat.lt_div_mul_add hd, ?_⟩
    · unfold check_buffer
      rw [if_pos hlt]
    · intro hdvd
      exact Nat.div_mul_cancel hdvd
  · intro hle
    unfold check_buffer
    rw [if_neg (by omega)]

/-- C8 witness: threshold 25 bytes; a 27-byte backlog is drained down to
25 bytes, a 20-byte backlog is left untouched, and a whole-record
30-byte backlog is drained completely. -/
theorem check_buffer_drain_witness :
    check_buffer 5 5 27 = (27 / 5 * 5, true) ∧
    check_buffer 5 5 20 = (0, false) ∧
    30 / 5 * 5 = 30 :=
  ⟨((check_buffer_drain 5 5 27 (by decide)).1 (by decide)).1,
   (check_buffer_drain 5 5 20 (by decide)).2 (by decide),
   ((check_buffer_drain 5 5 30 (by decide)).1 (by decide)).2.2.2 (by decide)⟩

/-- C9 counterexample: the status byte 3 makes the health decoder fail
with a `KeyError` — an unhandled dictionary lookup failure, which in
Python is a `LookupError`, not a `ValueError`-class exception. -/
theorem get_health_decode_keyerror :
    get_health_decode 3 0 0 = Except.error (PyErr.keyError 3) ∧
    Except.error (PyErr.keyError 3) ≠
      (Except.error PyErr.valueError : Except PyErr (String × Nat)) := by
  refine ⟨rfl, fun h => ?_⟩
  exact PyErr.noConfusion (Except.error.inj h)

/-- C9 amended: decoding a 3-byte health body fails with a `KeyError`
(not a `ValueError`) for every status byte not in 0, 1, 2, and for
recognized status bytes returns the status string (0 Good, 1 Warning,
2 Error) with the 16-bit error code taken big-endian from bytes 1
and 2. -/
theorem get_health_decode_spec (b0 b1 b2 : Nat) :
    (3 ≤ b0 → get_health_decode b0 b1 b2 = Except.error (PyErr.keyError b0)) ∧
    get_health_decode 0 b1 b2 = Except.ok ("Good", b1 * 2 ^ 8 + b2) ∧
    get_health_decode 1 b1 b2 = Except.ok ("Warning", b1 * 2 ^ 8 + b2) ∧
    get_health_decode 2 b1 b2 = Except.ok ("Error", b1 * 2 ^ 8 + b2) := by
  refine ⟨fun h3 => ?_, rfl, rfl, rfl⟩
  have h0 : ¬b0 = 0 := by omega
  have h1 : ¬b0 = 1 := by omega
  have h2 : ¬b0 = 2 := by omega
  simp [get_health_decode, HEALTH_STATUSES, h0, h1, h2]

/-- C9 witness: status bytes 3 and 0 with error code 0x0102. -/
theorem get_health_decode_spec_witness :
    get_health_decode 3 1 2 = Except.error (PyErr.keyError 3) ∧
    get_health_decode 0 1 2 = Except.ok ("Good", 1 * 2 ^ 8 + 2) :=
  ⟨(get_health_decode_spec 3 1 2).1 (by decide),
   (get_health_decode_spec 0 1 2).2.1⟩

/-- Two numbers with different parities give different answers to the
boolean test "is the low bit 1". -/
theorem mod_two_beq_ne (x y : Nat) (h : x % 2 ≠ y % 2) :
    ¬((x % 2 == 1) = (y % 2 == 1)) := by
  rcases Nat.mod_two_eq_zero_or_one x with hx | hx <;>
    rcases Nat.mod_two_eq_zero_or_one y with hy | hy <;>
      simp [hx, hy] at h ⊢

/-- C4: if the first health check reports Error, exactly one reset is
issued followed by a second health check; if the second check still
reports Error, the hardware-failure exception is raised and no further
protocol command is sent — in particular the start-scan command is
never sent; if the first check is Good (or Warning) no reset is issued
and control proceeds directly to the start-scan command and its
descriptor validation. -/
theorem setup_iter_health_policy (h2 : HStatus) :
    (setup_iter HStatus.error HStatus.error =
        ([Action.startMotor, Action.getHealth, Action.resetCmd, Action.getHealth], true) ∧
      Action.sendScanCmd ∉ (setup_iter HStatus.error HStatus.error).1) ∧
    (h2 ≠ HStatus.error →
      setup_iter HStatus.error h2 =
        ([Action.startMotor, Action.getHealth, Action.resetCmd, Action.getHealth,
          Action.sendScanCmd, Action.readDesc], false)) ∧
    (∀ h1, h1 ≠ HStatus.error → ∀ hx,
      setup_iter h1 hx =
        ([Action.startMotor, Action.getHealth, Action.sendScanCmd, Action.readDesc],
          false)) := by
  refine ⟨⟨rfl, by decide⟩, fun hne => ?_, fun h1 hne hx => ?_⟩
  · simp [setup_iter, hne]
  · simp [setup_iter, hne]

/-- C4 witness: Error then Good recovers through one reset; Good and
Warning proceed with no reset. -/
theorem setup_iter_health_policy_witness :
    setup_iter HStatus.error HStatus.good =
      ([Action.startMotor, Action.getHealth, Action.resetCmd, Action.getHealth,
        Action.sendScanCmd, Action.readDesc], false) ∧
    setup_iter HStatus.good HStatus.good =
      ([Action.startMotor, Action.getHealth, Action.sendScanCmd, Action.readDesc], false) ∧
    setup_iter HStatus.warning HStatus.good =
      ([Action.startMotor, Action.getHealth, Action.sendScanCmd, Action.readDesc], false) :=
  ⟨(setup_iter_health_policy HStatus.good).2.1 (by decide),
   (setup_iter_health_policy HStatus.good).2.2 HStatus.good (by decide) HStatus.good,
   (setup_iter_health_policy HStatus.good).2.2 HStatus.warning (by decide) HStatus.good⟩

/-- C5 counterexample: with a channel that never has any byte available,
requesting 5 bytes fails with the RPLidarException "Wrong body size" —
the same exception as a channel truncation — and not with a
TimeoutError: the poll loop running out raises nothing by itself. -/
theorem read_response_no_timeout_error :
    read_response 1000 (fun _ => 0) 5 =
      Except.error (PyErr.rplidarException "Wrong body size") ∧
    read_response 1000 (fun _ => 0) 5 ≠ Except.error PyErr.timeoutError := by
  have h : read_response 1000 (fun _ => 0) 5 =
      Except.error (PyErr.rplidarException "Wrong body size") := rfl
  refine ⟨h, fun hc => ?_⟩
  rw [h] at hc
  exact PyErr.noConfusion (Except.error.inj hc)

/-- C5 amended: when the channel never reaches the requested byte count
before the poll deadline, the read is attempted anyway and fails with
the same single RPLidarException "Wrong body size" that a short read
produces; the only outcomes are success with the full count or that one
exception, and a TimeoutError is never raised — the two failure
conditions are not distinct outcomes. -/
theorem read_response_single_error (polls : Nat) (avail : Nat → Nat) (dsize : Nat) :
    ((∀ i, avail i < dsize) →
      read_response polls avail dsize =
        Except.error (PyErr.rplidarException "Wrong body size")) ∧
    (read_response polls avail dsize = Except.ok dsize ∨
      read_response polls avail dsize =
        Except.error (PyErr.rplidarException "Wrong body size")) ∧
    read_response polls avail dsize ≠ Except.error PyErr.timeoutError := by
  by_cases hc : min (avail (poll_loop avail dsize polls 0)) dsize ≠ dsize
  · have h : read_response polls avail dsize =
        Except.error (PyErr.rplidarException "Wrong body size") := by
      simp only [read_response, if_pos hc]
    refine ⟨fun _ => h, Or.inr h, fun hx => ?_⟩
    rw [h] at hx
    exact PyErr.noConfusion (Except.error.inj hx)
  · push_neg at hc
    have h : read_response polls avail dsize = Except.ok dsize := by
      simp only [read_response, hc]
      rw [if_neg fun hx => hx rfl]
    refine ⟨fun hnever => ?_, Or.inl h, fun hx => ?_⟩
    · have := hnever (poll_loop avail dsize polls 0)
      omega
    · rw [h] at hx
      exact Except.noConfusion hx

/-- C5 witness: a channel stuck at one available byte for a 5-byte
request, and a channel with plenty of bytes for comparison. -/
theorem read_response_single_error_witness :
    read_response 1000 (fun _ => 1) 5 =
      Except.error (PyErr.rplidarException "Wrong body size") ∧
    read_response 3 (fun _ => 9) 5 ≠ Except.error PyErr.timeoutError :=
  ⟨(read_response_single_error 1000 (fun _ => 1) 5).1 (fun _ => by decide),
   (read_response_single_error 3 (fun _ => 9) 5).2.2⟩

/-- C6: for every valid 5-byte measurement record — new-scan bit
differing from its inverse bit and check bit equal to 1 — the decoder
returns new-scan as bit 0 of byte 0, quality as bits 2..7 of byte 0,
angle ((byte1 >> 1) + (byte2 << 7)) / 64 degrees and distance
(byte3 + (byte4 << 8)) / 4 millimeters, both exact rationals. -/
theorem process_scan_valid (b0 b1 b2 b3 b4 : Nat) (hb0 : b0 < 256)
    (hflag : b0 % 2 ≠ b0 / 2 % 2) (hcheck : b1 % 2 = 1) :
    process_scan [b0, b1, b2, b3, b4] =
      Except.ok ⟨b0 % 2 == 1, b0 / 4,
        ((b1 / 2 + b2 * 2 ^ 7 : Nat) : ℚ) / 64,
        ((b3 + b4 * 2 ^ 8 : Nat) : ℚ) / 4⟩ ∧
    b0 / 4 = b0 / 2 ^ 2 % 2 ^ 6 := by
  constructor
  · have hne := mod_two_beq_ne b0 (b0 / 2) hflag
    simp [process_scan, hne, hcheck]
  · have h2 : (2 : Nat) ^ 2 = 4 := rfl
    have h6 : (2 : Nat) ^ 6 = 64 := rfl
    rw [h2, h6]
    omega

/-- C6 witness: the record 01 03 01 08 01 — a new-scan measurement of
quality 0, angle 129/64 degrees and distance 66 millimeters. -/
theorem process_scan_valid_witness :
    process_scan [1, 3, 1, 8, 1] =
      Except.ok ⟨1 % 2 == 1, 1 / 4,
        ((3 / 2 + 1 * 2 ^ 7 : Nat) : ℚ) / 64,
        ((8 + 1 * 2 ^ 8 : Nat) : ℚ) / 4⟩ ∧
    1 / 4 = 1 / 2 ^ 2 % 2 ^ 6 :=
  process_scan_valid 1 3 1 8 1 (by decide) (by decide) (by decide)

/-- An `Except.error` result is not ok. -/
theorem isOk_error_eq (α : Type) (e : PyErr) :
    (Except.error e : Except PyErr α).isOk = false := rfl

/-- An `Except.ok` result is ok. -/
theorem isOk_ok_eq (α : Type) (x : α) :
    (Except.ok x : Except PyErr α).isOk = true := rfl

/-- C7: measurement decoding fails with the RPLidarException for every
5-byte record whose byte-0 bits 0 and 1 agree, fails for every record
whose byte-1 bit 0 is 0, and succeeds exactly when both structural
invariants hold. -/
theorem process_scan_validation (b0 b1 b2 b3 b4 : Nat) :
    (b0 % 2 = b0 / 2 % 2 →
      process_scan [b0, b1, b2, b3, b4] =
        Except.error (PyErr.rplidarException "New scan flags mismatch")) ∧
    (b1 % 2 = 0 → (process_scan [b0, b1, b2, b3, b4]).isOk = false) ∧
    ((process_scan [b0, b1, b2, b3, b4]).isOk = true ↔
      (b0 % 2 ≠ b0 / 2 % 2 ∧ b1 % 2 = 1)) := by
  by_cases hf : b0 % 2 = b0 / 2 % 2
  · have herr : process_scan [b0, b1, b2, b3, b4] =
        Except.error (PyErr.rplidarException "New scan flags mismatch") := by
      simp [process_scan, hf]
    refine ⟨fun _ => herr, fun _ => ?_, ?_⟩
    · rw [herr]
      rfl
    · rw [herr]
      simp [isOk_error_eq, hf]
  · have hne := mod_two_beq_ne b0 (b0 / 2) hf
    by_cases hc : b1 % 2 = 1
    · have hok : process_scan [b0, b1, b2, b3, b4] =
          Except.ok ⟨b0 % 2 == 1, b0 / 4,
            ((b1 / 2 + b2 * 2 ^ 7 : Nat) : ℚ) / 64,
            ((b3 + b4 * 2 ^ 8 : Nat) : ℚ) / 4⟩ := by
        simp [process_scan, hne, hc]
      refine ⟨fun hx => absurd hx hf, fun h0 => absurd hc (by omega), ?_⟩
      rw [hok]
      simp [isOk_ok_eq, hf, hc]
    · have herr : process_scan [b0, b1, b2, b3, b4] =
          Except.error (PyErr.rplidarException "Check bit not equal to 1") := by
        simp [process_scan, hne, hc]
      refine ⟨fun hx => absurd hx hf, fun _ => ?_, ?_⟩
      · rw [herr]
        rfl
      · rw [herr]
        simp [isOk_error_eq, hc]

/-- C7 witness: a record with matching flag bits fails, a record with a
cleared check bit fails, a well-formed record succeeds. -/
theorem process_scan_validation_witness :
    process_scan [3, 1, 0, 0, 0] =
      Except.error (PyErr.rplidarException "New scan flags mismatch") ∧
    (process_scan [1, 2, 0, 0, 0]).isOk = false ∧
    (process_scan [1, 1, 0, 0, 0]).isOk = true :=
  ⟨(process_scan_validation 3 1 0 0 0).1 (by decide),
   (process_scan_validation 1 2 0 0 0).2.1 (by decide),
   (process_scan_validation 1 1 0 0 0).2.2.mpr ⟨by decide, by decide⟩⟩

/-- A batch without any new-scan flag emits nothing and appends every
measurement to the in-progress scan. -/
theorem iter_scans_batch_no_flags (min_len maxb : Nat) (g : Nat → Bool)
    (ms : List Meas) (h : ∀ m ∈ ms, m.new_scan = false) :
    ∀ (i : Nat) (scan : List (Nat × ℚ × ℚ)),
      iter_scans_batch min_len maxb g ms i scan = ([], scan ++ ms.map mdata) := by
  induction ms with
  | nil =>
    intro i scan
    simp [iter_scans_batch]
  | cons m tl ih =>
    intro i scan
    have hm : m.new_scan = false := h m (by simp)
    have htl : ∀ m' ∈ tl, m'.new_scan = false := fun m' hm' => h m' (by simp [hm'])
    simp [iter_scans_batch, hm, ih htl (i + 1) (scan ++ [mdata m])]

/-- A flag-free prefix of a batch only extends the in-progress scan;
processing then continues on the remainder. -/
theorem iter_scans_batch_append_no_flags (min_len maxb : Nat) (g : Nat → Bool)
    (ms rest : List Meas) (h : ∀ m ∈ ms, m.new_scan = false) :
    ∀ (i : Nat) (scan : List (Nat × ℚ × ℚ)),
      iter_scans_batch min_len maxb g (ms ++ rest) i scan =
        iter_scans_batch min_len maxb g rest (i + ms.length) (scan ++ ms.map mdata) := by
  induction ms with
  | nil =>
    intro i scan
    simp
  | cons m tl ih =>
    intro i scan
    have hm : m.new_scan = false := h m (by simp)
    have htl : ∀ m' ∈ tl, m'.new_scan = false := fun m' hm' => h m' (by simp [hm'])
    have h1 : iter_scans_batch min_len maxb g ((m :: tl) ++ rest) i scan =
        iter_scans_batch min_len maxb g (tl ++ rest) (i + 1) (scan ++ [mdata m]) := by
      simp [iter_scans_batch, hm]
    rw [h1, ih htl]
    have h2 : i + 1 + tl.length = i + (m :: tl).length := by
      simp
      omega
    rw [h2]
    simp

/-- C2: a batch whose new-scan flags sit exactly at positions 0 and
k = mid.length + 1, started on an empty in-progress scan with the
overflow guard disabled, yields exactly one scan — the first k
measurements — when k is strictly greater than min_len, and yields
nothing when k ≤ min_len; and the transition rule holds: a flagged
measurement emits the in-progress scan exactly when it is strictly
longer than min_len and starts a new scan either way, an unflagged
measurement is appended. -/
theorem iter_scans_two_flag_span (min_len : Nat) (m0 mk : Meas)
    (mid tail : List Meas)
    (h0 : m0.new_scan = true) (hk : mk.new_scan = true)
    (hmid : ∀ m ∈ mid, m.new_scan = false)
    (htail : ∀ m ∈ tail, m.new_scan = false) :
    (min_len < mid.length + 1 →
      (iter_scans_batch min_len 0 (fun _ => false) (m0 :: (mid ++ mk :: tail)) 0 []).1 =
        [(m0 :: mid).map mdata] ∧
      ((m0 :: mid).map mdata).length = mid.length + 1) ∧
    (mid.length + 1 ≤ min_len →
      (iter_scans_batch min_len 0 (fun _ => false) (m0 :: (mid ++ mk :: tail)) 0 []).1 = []) ∧
    (∀ (scan : List (Nat × ℚ × ℚ)) (m : Meas) (i : Nat), m.new_scan = true →
      iter_scans_batch min_len 0 (fun _ => false) [m] i scan =
        ((if min_len < scan.length then [scan] else []), [mdata m])) ∧
    (∀ (scan : List (Nat × ℚ × ℚ)) (m : Meas) (i : Nat), m.new_scan = false →
      iter_scans_batch min_len 0 (fun _ => false) [m] i scan = ([], scan ++ [mdata m])) := by
  have hrun : iter_scans_batch min_len 0 (fun _ => false)
      (m0 :: (mid ++ mk :: tail)) 0 [] =
      ((if min_len < mid.length + 1 then [(m0 :: mid).map mdata] else []),
        mdata mk :: tail.map mdata) := by
    have hstep : iter_scans_batch min_len 0 (fun _ => false)
        (m0 :: (mid ++ mk :: tail)) 0 [] =
        iter_scans_batch min_len 0 (fun _ => false) (mid ++ mk :: tail) 1 [mdata m0] := by
      simp [iter_scans_batch, h0]
    rw [hstep, iter_scans_batch_append_no_flags min_len 0 (fun _ => false) mid
      (mk :: tail) hmid 1 [mdata m0]]
    have htl := iter_scans_batch_no_flags min_len 0 (fun _ => false) tail htail
      (1 + mid.length + 1) [mdata mk]
    simp [iter_scans_batch, hk, htl]
  refine ⟨fun hgt => ⟨?_, by simp⟩, fun hle => ?_, fun scan m i hm => ?_, fun scan m i hm => ?_⟩
  · rw [hrun]
    simp [if_pos hgt]
  · rw [hrun]
    simp [if_neg (by omega : ¬min_len < mid.length + 1)]
  · simp [iter_scans_batch, hm]
  · simp [iter_scans_batch, hm]

/-- C2 witness: with min_len = 1, the batch flagged at positions 0 and 2
yields exactly the scan of the first two measurements; with min_len = 5
the same batch yields nothing. -/
theorem iter_scans_two_flag_span_witness :
    (iter_scans_batch 1 0 (fun _ => false)
        ((⟨true, 5, 1, 2⟩ : Meas) :: ([⟨false, 6, 2, 3⟩] ++ (⟨true, 7, 3, 4⟩ : Meas) :: []))
        0 []).1 =
      [((⟨true, 5, 1, 2⟩ : Meas) :: [⟨false, 6, 2, 3⟩]).map mdata] ∧
    (iter_scans_batch 5 0 (fun _ => false)
        ((⟨true, 5, 1, 2⟩ : Meas) :: ([⟨false, 6, 2, 3⟩] ++ (⟨true, 7, 3, 4⟩ : Meas) :: []))
        0 []).1 = [] :=
  ⟨((iter_scans_two_flag_span 1 ⟨true, 5, 1, 2⟩ ⟨true, 7, 3, 4⟩ [⟨false, 6, 2, 3⟩] []
      rfl rfl (by simp) (by simp)).1 (by simp)).1,
   (iter_scans_two_flag_span 5 ⟨true, 5, 1, 2⟩ ⟨true, 7, 3, 4⟩ [⟨false, 6, 2, 3⟩] []
      rfl rfl (by simp) (by simp)).2.1 (by simp)⟩

/-- C10: on a measurement whose new-scan flag is set, the in-progress
scan is first emitted when long enough; if the overflow guard then
fires (max_buf_meas non-zero and the buffer check returning true),
the batch is abandoned with an empty in-progress scan, so the flagged
measurement itself is discarded and the scan it started never contains
it; if the guard does not fire, processing continues with the new
in-progress scan equal to exactly that one measurement, which is
therefore its first element. -/
theorem iter_scans_guard_break (min_len maxb : Nat) (g : Nat → Bool)
    (m : Meas) (rest : List Meas) (i : Nat) (scan : List (Nat × ℚ × ℚ))
    (hm : m.new_scan = true) :
    (maxb ≠ 0 → g i = true →
      iter_scans_batch min_len maxb g (m :: rest) i scan =
        ((if min_len < scan.length then [scan] else []), [])) ∧
    ((maxb = 0 ∨ g i = false) →
      iter_scans_batch min_len maxb g (m :: rest) i scan =
        ((if min_len < scan.length then [scan] else []) ++
            (iter_scans_batch min_len maxb g rest (i + 1) [mdata m]).1,
          (iter_scans_batch min_len maxb g rest (i + 1) [mdata m]).2)) ∧
    ((maxb = 0 ∨ g i = false) → (∀ m' ∈ rest, m'.new_scan = false) →
      (iter_scans_batch min_len maxb g (m :: rest) i scan).2 = (m :: rest).map mdata) := by
  have hcont : (maxb = 0 ∨ g i = false) →
      iter_scans_batch min_len maxb g (m :: rest) i scan =
        ((if min_len < scan.length then [scan] else []) ++
            (iter_scans_batch min_len maxb g rest (i + 1) [mdata m]).1,
          (iter_scans_batch min_len maxb g rest (i + 1) [mdata m]).2) := by
    rintro (h0 | hg)
    · subst h0
      simp [iter_scans_batch, hm]
    · simp [iter_scans_batch, hm, hg]
  refine ⟨fun hmaxb hg => ?_, hcont, fun hnb hflags => ?_⟩
  · simp [iter_scans_batch, hm, hmaxb, hg]
  · rw [hcont hnb,
      iter_scans_batch_no_flags min_len maxb g rest hflags (i + 1) [mdata m]]
    simp

/-- C10 witness: a firing guard discards the delimiting measurement and
empties the in-progress scan; a silent guard makes it the first element
of the new scan. -/
theorem iter_scans_guard_break_witness :
    iter_scans_batch 0 1 (fun _ => true)
        ((⟨true, 5, 1, 2⟩ : Meas) :: []) 0 [(9, 9, 9)] =
      ((if 0 < [((9 : Nat), (9 : ℚ), (9 : ℚ))].length then [[(9, 9, 9)]] else []), []) ∧
    (iter_scans_batch 0 1 (fun _ => false)
        ((⟨true, 5, 1, 2⟩ : Meas) :: []) 0 [(9, 9, 9)]).2 =
      ([⟨true, 5, 1, 2⟩] : List Meas).map mdata :=
  ⟨(iter_scans_guard_break 0 1 (fun _ => true) ⟨true, 5, 1, 2⟩ [] 0 [(9, 9, 9)] rfl).1
      (by decide) rfl,
   (iter_scans_guard_break 0 1 (fun _ => false) ⟨true, 5, 1, 2⟩ [] 0 [(9, 9, 9)] rfl).2.2
      (Or.inr rfl) (by simp)⟩

end RPLidar
